/-
Verification of the TeslaJS client library's identifier decoding, option-code
color lookup, clamping helpers and HTTP request gateway, as a shallow
embedding of the JavaScript source (teslajs.js).

JavaScript conventions carried into the embedding:
  * `str.charAt(i)` returns the empty string out of range; we model characters
    as `Option Char`, with `none` for out-of-range access.
  * `str.charCodeAt(i)` returns NaN out of range; decoded model years are
    therefore `Option Int`, with `none` standing for NaN.
  * a missing or falsy field (`!vehicle`, `!vehicle.vin`, `!pass`) is modelled
    with `Option`, and the number 0 is falsy.
-/
import Mathlib

namespace TeslaJS

/-- JS `s.charAt(i)` / `s.charCodeAt(i)` index, as an optional character
(`none` when the index is out of range). -/
def charAt (s : String) (i : Nat) : Option Char :=
  s.data.get? i

/-- A vehicle JSON object as far as `vinDecode` reads it: it may lack its
`vin` field (modelled by `none`). -/
structure Vehicle where
  vin : Option String
deriving DecidableEq

/-- The record returned by `vinDecode`: car model name, all-wheel-drive flag
and model year (`none` models the NaN produced by an out-of-range
`charCodeAt(9)`). -/
structure VehicleModelInfo where
  carType : String
  awd : Bool
  year : Option Int
deriving DecidableEq

/-- JS truthiness of `vehicle && vehicle.vin` for an optional vehicle whose
`vin` is an optional string: falsy when the vehicle is absent, the field is
absent, or the string is empty. -/
def vinFalsy : Option Vehicle → Bool
  | none => true
  | some v =>
    match v.vin with
    | none => true
    | some s => s == ""

/-- Embedding of `vinDecode(vehicle)` (teslajs.js lines 226-261): defaults
`{carType: "Model S", awd: false, year: 2012}`; when a vin is present, the
year comes from position 9, the model from position 3 and the AWD flag from
position 7. -/
def vinDecode (vehicle : Option Vehicle) : VehicleModelInfo :=
  let result : VehicleModelInfo := ⟨"Model S", false, some 2012⟩
  if vinFalsy vehicle then result
  else
    match vehicle with
    | none => result
    | some v =>
      match v.vin with
      | none => result
      | some vin =>
        let year : Option Int :=
          match charAt vin 9 with
          | some c => some (2010 + (c.toNat : Int) - ('A'.toNat : Int))
          | none => none
        let carType : String :=
          match charAt vin 3 with
          | some 'S' => "Model S"
          | some '3' => "Model 3"
          | some 'X' => "Model X"
          | some 'Y' => "Model Y"
          | _ => "Model S"
        let awd : Bool :=
          charAt vin 7 == some '2' || charAt vin 7 == some '4' ||
            charAt vin 7 == some 'B'
        ⟨carType, awd, year⟩

/-- The color lookup object of `getPaintColor` (teslajs.js lines 269-285), in
source order; its keys, in this order, are also exactly the alternatives of
the regular expression on line 287. -/
def paintColorTable : List (String × String) :=
  [("PBCW", "white"),
   ("PBSB", "black"),
   ("PMAB", "metallic brown"),
   ("PMBL", "metallic black"),
   ("PMMB", "metallic blue"),
   ("PMMR", "multi-coat red"),
   ("PPMR", "multi-coat red"),
   ("PMNG", "steel grey"),
   ("PMSG", "metallic green"),
   ("PMSS", "metallic silver"),
   ("PPSB", "ocean blue"),
   ("PPSR", "signature red"),
   ("PPSW", "pearl white"),
   ("PPTI", "titanium"),
   ("PMTG", "metallic grey")]

/-- The alternatives of the regular expression
`/PBCW|PBSB|...|PMTG/` on teslajs.js line 287, in alternation order. -/
def paintCodes : List String := paintColorTable.map (·.1)

/-- Whether the pattern `p` occurs in `s` starting at index `i`. -/
def matchesAt (s : List Char) (i : Nat) (p : List Char) : Bool :=
  (s.drop i).take p.length == p

/-- JS regex alternation at one position: the first alternative (in pattern
order) that matches at index `i`, if any. -/
def matchAt (s : String) (i : Nat) (codes : List String) : Option String :=
  codes.find? (fun code => matchesAt s.data i code.data)

/-- JS `string.match(regex)` for an alternation of literals: the leftmost
position with a match wins, and at that position the earliest alternative
wins; `none` models the `null` returned when nothing matches. -/
def regexFirstMatch (s : String) (codes : List String) : Option String :=
  (List.range s.length).findSome? (fun i => matchAt s i codes)

/-- Embedding of `getPaintColor(vehicle)` (teslajs.js lines 268-290) as a
function of the vehicle's `option_codes` string: first regex match against
the 15 known codes, looked up in the color table, `"black"` when nothing
matches (`colors[null]` is `undefined`, so `|| "black"` applies). -/
def getPaintColor (option_codes : String) : String :=
  match regexFirstMatch option_codes paintCodes with
  | some code => ((paintColorTable.lookup code).getD "black")
  | none => "black"

/-- Embedding of `clamp(value, min, max)` (teslajs.js lines 143-153): the two
`if` statements applied in order. -/
def clamp (value min max : Int) : Int :=
  let v := if value < min then min else value
  if v > max then max else v

/-- `exports.CHARGE_STORAGE` (teslajs.js line 1278). -/
def CHARGE_STORAGE : Int := 50

/-- `exports.CHARGE_RANGE` (teslajs.js line 1293). -/
def CHARGE_RANGE : Int := 100

/-- `exports.MIN_TEMP` (teslajs.js line 1480). -/
def MIN_TEMP : Int := 15

/-- `exports.MAX_TEMP` (teslajs.js line 1485). -/
def MAX_TEMP : Int := 28

/-- The payload `{ percent: amt }` built by `setChargeLimit` (teslajs.js
lines 1303-1306) after `amt = clamp(amt, CHARGE_STORAGE, CHARGE_RANGE)`. -/
def setChargeLimitPayload (amt : Int) : List (String × Int) :=
  [("percent", clamp amt CHARGE_STORAGE CHARGE_RANGE)]

/-- The payload `{ driver_temp: driver, passenger_temp: pass }` sent by
`setTemps`. -/
structure SetTempsPayload where
  driver_temp : Int
  passenger_temp : Int
deriving DecidableEq

/-- Embedding of the payload construction of `setTemps(options, driver, pass,
callback)` (teslajs.js lines 1495-1505): a falsy `pass` (absent, or the falsy
number 0) is replaced by `driver`, then both are clamped to
`[MIN_TEMP, MAX_TEMP]`. -/
def setTempsPayload (driver : Int) (pass : Option Int) : SetTempsPayload :=
  let pass' : Int :=
    match pass with
    | none => driver
    | some p => if p == 0 then driver else p
  ⟨clamp driver MIN_TEMP MAX_TEMP, clamp pass' MIN_TEMP MAX_TEMP⟩

/-! ## The HTTP request gateway: `get_command` and `post_command` -/

/-- Upper-case hexadecimal digit for `n < 16`. -/
def hexDigit (n : Nat) : Char :=
  if n < 10 then Char.ofNat (48 + n) else Char.ofNat (65 + (n - 10))

/-- `%`-escape of one byte, as produced by `URLSearchParams`. -/
def percentByte (b : Nat) : String :=
  "%" ++ String.singleton (hexDigit (b / 16)) ++ String.singleton (hexDigit (b % 16))

/-- UTF-8 bytes of a code point. -/
def utf8Bytes (n : Nat) : List Nat :=
  if n < 0x80 then [n]
  else if n < 0x800 then [0xC0 + n / 0x40, 0x80 + n % 0x40]
  else if n < 0x10000 then
    [0xE0 + n / 0x1000, 0x80 + (n / 0x40) % 0x40, 0x80 + n % 0x40]
  else
    [0xF0 + n / 0x40000, 0x80 + (n / 0x1000) % 0x40, 0x80 + (n / 0x40) % 0x40,
     0x80 + n % 0x40]

/-- One character under `application/x-www-form-urlencoded` serialization
(what `URLSearchParams.toString()` emits): ASCII alphanumerics and `*-._`
kept, space becomes `+`, everything else is `%`-escaped byte-wise. -/
def formEncodeChar (c : Char) : String :=
  if c.isAlphanum || c == '*' || c == '-' || c == '.' || c == '_' then
    String.singleton c
  else if c == ' ' then "+"
  else String.join ((utf8Bytes c.toNat).map percentByte)

/-- `application/x-www-form-urlencoded` serialization of a string. -/
def formEncode (s : String) : String :=
  String.join (s.data.map formEncodeChar)

/-- `new URLSearchParams(pairs).toString()`: `k=v` components joined
with `&`, keys and values form-encoded. -/
def urlSearchParams (pairs : List (String × String)) : String :=
  String.intercalate "&"
    (pairs.map (fun kv => formEncode kv.1 ++ "=" ++ formEncode kv.2))

/-- An HTTP request as handed to the `request` transport: method, URL, the
headers set per call, and the optional JSON body payload (a JS object, seen
as its key/value pairs). -/
structure Request where
  method : String
  url : String
  headers : List (String × String)
  body : Option (List (String × String))
deriving DecidableEq

/-- The response object the transport passes to its callback (the fields the
gateway reads). -/
structure HttpResponse where
  statusCode : Nat
  statusMessage : String
deriving DecidableEq

/-- Outcome of one transport attempt, as the `request` library delivers it:
either a transport error, or a response together with a parsed body. -/
inductive Outcome (ε β : Type) where
  | failure (error : ε)
  | success (response : HttpResponse) (body : β)
deriving DecidableEq

/-- The error argument a gateway passes to the completion callback: either the
transport error forwarded verbatim, or the string built from a non-200
status code. -/
inductive CbError (ε : Type) where
  | transport (e : ε)
  | status (message : String)
deriving DecidableEq

/-- The request record built by `get_command` (teslajs.js lines 519-523):
method GET, `portalBaseURI + command`, the client-ID header, no body. -/
def get_request (portalBaseURI envVIN command : String) : Request :=
  ⟨"GET", portalBaseURI ++ command, [("X-SSL-Client-S-CN", envVIN)], none⟩

/-- The request record built by `post_command` (teslajs.js lines 577-584):
`u = new URLSearchParams(body).toString()`, method GET, URL
`portalBaseURI + command + '?' + u`, and `body || null` attached as the
request body. -/
def post_request (portalBaseURI envVIN command : String)
    (body : Option (List (String × String))) : Request :=
  let u : String :=
    match body with
    | some pairs => urlSearchParams pairs
    | none => ""
  ⟨"GET", portalBaseURI ++ command ++ "?" ++ u,
   [("X-SSL-Client-S-CN", envVIN)], body⟩

/-- The transport callback shared by `get_command` (lines 527-553) and
`post_command` (lines 588-614), as the list of invocations of the completion
callback it performs: transport error forwarded with a null body; non-200
status turned into the string `"Error response: " + statusCode` with a null
body; 200 handing the parsed body over with a null error. Each branch
invokes the completion callback exactly once. -/
def handle_response {ε β : Type} (outcome : Outcome ε β) :
    List (Option (CbError ε) × Option β) :=
  match outcome with
  | .failure e => [(some (.transport e), none)]
  | .success response body =>
    if response.statusCode = 200 then [(none, some body)]
    else [(some (.status ("Error response: " ++ toString response.statusCode)), none)]

/-- A completion callback, abstracted by the list of caller-side observations
one invocation produces. -/
def Callback (ε β ω : Type) : Type :=
  Option (CbError ε) → Option β → List ω

/-- `callback = callback || function (err, data) { /* do nothing! */ }`
(teslajs.js lines 517 and 576): an absent callback is replaced by a no-op. -/
def resolve_callback {ε β ω : Type} (cb : Option (Callback ε β ω)) :
    Callback ε β ω :=
  match cb with
  | some f => f
  | none => fun _ _ => []

/-- One whole run of `get_command(options, command, callback)` for a given
transport outcome: the request it issues, and the observations the completion
callback produces. -/
def run_get_command {ε β ω : Type} (portalBaseURI envVIN command : String)
    (cb : Option (Callback ε β ω)) (outcome : Outcome ε β) :
    Request × List ω :=
  (get_request portalBaseURI envVIN command,
   ((handle_response outcome).map
     (fun inv => resolve_callback cb inv.1 inv.2)).flatten)

/-- One whole run of `post_command(options, command, body, callback)` for a
given transport outcome: the request it issues, and the observations the
completion callback produces. -/
def run_post_command {ε β ω : Type} (portalBaseURI envVIN command : String)
    (body : Option (List (String × String))) (cb : Option (Callback ε β ω))
    (outcome : Outcome ε β) : Request × List ω :=
  (post_request portalBaseURI envVIN command body,
   ((handle_response outcome).map
     (fun inv => resolve_callback cb inv.1 inv.2)).flatten)

/-! ## Theorems for the claims -/

/-- Mapping every element to the empty list and flattening yields the empty
list. -/
theorem flatten_map_nil {α ω : Type} (l : List α) :
    (l.map (fun _ => ([] : List ω))).flatten = [] := by
  induction l with
  | nil => rfl
  | cons x xs ih => simp [ih]

/-- C1: for every command call with a non-null payload, the issued request's
URL is the base URI plus the command path plus `?` plus the URL-query-string
serialization of the payload's key/value pairs, the same payload is attached
as the request body, and the method is GET. -/
theorem C1_post_command_payload_in_query_and_body
    {ε β ω : Type} (portalBaseURI envVIN command : String)
    (p : List (String × String)) (cb : Option (Callback ε β ω))
    (outcome : Outcome ε β) :
    (run_post_command portalBaseURI envVIN command (some p) cb outcome).1 =
      post_request portalBaseURI envVIN command (some p)
    ∧ (post_request portalBaseURI envVIN command (some p)).url =
        portalBaseURI ++ command ++ "?" ++ urlSearchParams p
    ∧ (post_request portalBaseURI envVIN command (some p)).body = some p
    ∧ (post_request portalBaseURI envVIN command (some p)).method = "GET" :=
  ⟨rfl, rfl, rfl, rfl⟩

/-- C2: when the transport succeeds but the HTTP status is not 200, the
completion callback of `get_command`/`post_command` is invoked exactly once,
with an error string derived from the status code and a null body (the shared
transport handler is total, so no exception escapes the call). -/
theorem C2_non_200_status_single_error_callback
    {ε β : Type} (response : HttpResponse) (body : β)
    (h : response.statusCode ≠ 200) :
    handle_response (ε := ε) (.success response body) =
      [(some (.status ("Error response: " ++ toString response.statusCode)),
        none)]
    ∧ (handle_response (ε := ε) (.success response body)).length = 1 := by
  constructor
  · simp [handle_response, h]
  · simp [handle_response, h]

/-- C2 witness: an HTTP 404 on a successful transport yields exactly one
callback invocation carrying `"Error response: 404"` and a null body. -/
theorem C2_non_200_status_witness :
    handle_response (ε := Unit) (β := Unit) (.success ⟨404, "Not Found"⟩ ()) =
      [(some (.status ("Error response: " ++ toString (404 : Nat))), none)]
    ∧ (handle_response (ε := Unit) (β := Unit)
        (.success ⟨404, "Not Found"⟩ ())).length = 1 :=
  C2_non_200_status_single_error_callback ⟨404, "Not Found"⟩ () (by decide)

/-- C3: when no completion callback is supplied to `get_command` or
`post_command`, a no-op callback is substituted, so the caller observes
nothing whatever the transport outcome (failures are silently discarded, no
error reaches the caller), and the request issued is the same one that would
be issued with any callback — the call still proceeds. -/
theorem C3_missing_callback_noop
    {ε β ω : Type} (portalBaseURI envVIN command : String)
    (payload : Option (List (String × String))) (outcome : Outcome ε β) :
    (run_get_command portalBaseURI envVIN command
        (none : Option (Callback ε β ω)) outcome).2 = []
    ∧ (run_post_command portalBaseURI envVIN command payload
        (none : Option (Callback ε β ω)) outcome).2 = []
    ∧ (∀ cb : Option (Callback ε β ω),
        (run_get_command portalBaseURI envVIN command cb outcome).1 =
          get_request portalBaseURI envVIN command
        ∧ (run_post_command portalBaseURI envVIN command payload cb
            outcome).1 = post_request portalBaseURI envVIN command payload) :=
  ⟨flatten_map_nil _, flatten_map_nil _, fun _ => ⟨rfl, rfl⟩⟩

/-- An identifier with a character at position 9 is non-empty. -/
theorem charAt_some_ne_empty {s : String} {i : Nat} {c : Char}
    (h : charAt s i = some c) : (s == "") = false := by
  unfold charAt at h
  rcases List.get?_eq_some.mp h with ⟨hlt, _⟩
  have hne : s.data ≠ [] := by
    intro hnil
    rw [hnil] at hlt
    exact absurd hlt (by simp)
  simp only [beq_eq_false_iff_ne, ne_eq]
  intro hs
  apply hne
  rw [hs]

/-- C4: when the vehicle identifier is absent — no vehicle object, or the
vehicle lacks its `vin` field — `vinDecode` returns exactly the default
record `{carType: "Model S", awd: false, year: 2012}` (and, being a total
function, never fails). -/
theorem C4_absent_identifier_default
    (vehicle : Option Vehicle)
    (h : vehicle = none ∨ ∃ v, vehicle = some v ∧ v.vin = none) :
    vinDecode vehicle = ⟨"Model S", false, some 2012⟩ := by
  rcases h with h | ⟨v, hv, hvin⟩
  · rw [h]; rfl
  · rcases v with ⟨vin⟩
    simp only at hvin
    rw [hv, hvin]
    rfl

/-- C4 witness: the default record is returned for a missing vehicle and for
a vehicle without a `vin` field. -/
theorem C4_absent_identifier_default_witness :
    vinDecode none = ⟨"Model S", false, some 2012⟩
    ∧ vinDecode (some ⟨none⟩) = ⟨"Model S", false, some 2012⟩ :=
  ⟨C4_absent_identifier_default none (Or.inl rfl),
   C4_absent_identifier_default (some ⟨none⟩)
     (Or.inr ⟨⟨none⟩, rfl, rfl⟩)⟩

/-- C5: for every identifier string with a character at position 9, the
decoded model year is `2010 + (charCode(pos9) - charCode('A'))`, whatever
that character is (no bounds check). -/
theorem C5_model_year_from_position_9
    (s : String) (c : Char) (h : charAt s 9 = some c) :
    (vinDecode (some ⟨some s⟩)).year =
      some (2010 + (c.toNat : Int) - ('A'.toNat : Int)) := by
  have hne : (s == "") = false := charAt_some_ne_empty h
  unfold vinDecode vinFalsy
  simp only [hne, Bool.false_eq_true, if_false, h]

/-- C5 witness: position 9 = 'A' decodes to year 2010 (charCode 65), and
position 9 = 'L' decodes to year 2021 (charCode 76). -/
theorem C5_model_year_witness :
    (vinDecode (some ⟨some "5YJSA1E14Axxxxxxx"⟩)).year = some 2010
    ∧ (vinDecode (some ⟨some "5YJSA1E14Lxxxxxxx"⟩)).year = some 2021 := by
  constructor
  · have h := C5_model_year_from_position_9 "5YJSA1E14Axxxxxxx" 'A' (by decide)
    rw [h]; decide
  · have h := C5_model_year_from_position_9 "5YJSA1E14Lxxxxxxx" 'L' (by decide)
    rw [h]; decide

/-- C6: for every identifier string, the decoded model family is determined
solely by the character at position 3: 'S', '3', 'X', 'Y' give the four
model names and anything else (including a string too short to have a
position 3) leaves the default "Model S". -/
theorem C6_model_family_from_position_3 (s : String) :
    (vinDecode (some ⟨some s⟩)).carType =
      match charAt s 3 with
      | some 'S' => "Model S"
      | some '3' => "Model 3"
      | some 'X' => "Model X"
      | some 'Y' => "Model Y"
      | _ => "Model S" := by
  by_cases hs : s = ""
  · rw [hs]; rfl
  · have hne : (s == "") = false := by simp [hs]
    unfold vinDecode vinFalsy
    simp only [hne, Bool.false_eq_true, if_false]

/-- C7: for every identifier string, the decoded all-wheel-drive flag is true
iff the character at position 7 is '2', '4' or 'B'. -/
theorem C7_awd_from_position_7 (s : String) :
    (vinDecode (some ⟨some s⟩)).awd = true ↔
      (charAt s 7 = some '2' ∨ charAt s 7 = some '4' ∨
        charAt s 7 = some 'B') := by
  by_cases hs : s = ""
  · subst hs
    constructor
    · intro h; exact absurd h (by decide)
    · intro h; rcases h with h | h | h <;> exact absurd h (by decide)
  · have hne : (s == "") = false := by simp [hs]
    unfold vinDecode vinFalsy
    simp only [hne, Bool.false_eq_true, if_false, Bool.or_eq_true,
      beq_iff_eq]
    tauto

/-- C8 counterexample: the paint-color lookup table of `getPaintColor` has 15
entries, not 14 as claimed. -/
theorem C8_paint_table_not_14_entries :
    paintColorTable.length = 15 ∧ ¬ paintColorTable.length = 14 := by
  decide

/-- C8 (amended): the paint color is resolved by a first-match scan against a
fixed 15-entry lookup table of known 4-character codes mapped to a
human-readable name; a string whose first recognized code is "PPSW" yields
"pearl white", and a string containing no recognized code (none of the
codes matches at any position) yields the default "black". -/
theorem C8_paint_color_first_match_scan :
    paintColorTable.length = 15
    ∧ (∀ s : String, getPaintColor s =
        match regexFirstMatch s paintCodes with
        | some code => (paintColorTable.lookup code).getD "black"
        | none => "black")
    ∧ getPaintColor "AD15,PPSW,RF3G" = "pearl white"
    ∧ (∀ s : String, (∀ i < s.length, matchAt s i paintCodes = none) →
        getPaintColor s = "black") := by
  refine ⟨by decide, fun s => rfl, by decide, ?_⟩
  intro s h
  have hnone : regexFirstMatch s paintCodes = none := by
    unfold regexFirstMatch
    rw [List.findSome?_eq_none_iff]
    intro i hi
    exact h i (List.mem_range.mp hi)
  unfold getPaintColor
  rw [hnone]

/-- C8 witness: the string "ZZQQ" matches no code at any position, and its
paint color resolves to "black". -/
theorem C8_paint_color_witness :
    getPaintColor "ZZQQ" = "black" :=
  C8_paint_color_first_match_scan.2.2.2 "ZZQQ" (by decide)

/-- C9: `clamp` is the standard two-sided clamp for ordered bounds; the three
quoted evaluations hold; the charge-limit payload carries
`clamp(amt, 50, 100)` as its percent, always within [50, 100]; and the
set-temperatures payload carries both temperatures clamped into [15, 28]. -/
theorem C9_clamp_and_uses :
    (∀ v lo hi : Int, lo ≤ hi →
      clamp v lo hi = if v < lo then lo else if v > hi then hi else v)
    ∧ clamp 30 50 100 = 50 ∧ clamp 150 50 100 = 100 ∧ clamp 75 50 100 = 75
    ∧ (∀ amt : Int,
        setChargeLimitPayload amt = [("percent", clamp amt 50 100)]
        ∧ 50 ≤ clamp amt CHARGE_STORAGE CHARGE_RANGE
        ∧ clamp amt CHARGE_STORAGE CHARGE_RANGE ≤ 100)
    ∧ (∀ (d : Int) (p : Option Int),
        (setTempsPayload d p).driver_temp = clamp d 15 28
        ∧ 15 ≤ (setTempsPayload d p).driver_temp
        ∧ (setTempsPayload d p).driver_temp ≤ 28
        ∧ 15 ≤ (setTempsPayload d p).passenger_temp
        ∧ (setTempsPayload d p).passenger_temp ≤ 28) := by
  refine ⟨?_, by decide, by decide, by decide, ?_, ?_⟩
  · intro v lo hi hle
    simp only [clamp]
    split_ifs <;> omega
  · intro amt
    refine ⟨rfl, ?_, ?_⟩ <;>
      · simp only [clamp, CHARGE_STORAGE, CHARGE_RANGE]
        split_ifs <;> omega
  · intro d p
    rcases p with _ | q <;>
      refine ⟨rfl, ?_, ?_, ?_, ?_⟩ <;>
        · simp only [setTempsPayload, clamp, MIN_TEMP, MAX_TEMP]
          split_ifs <;> omega

/-- C9 witness: the clamp characterization applied at `clamp(30, 50, 100)`. -/
theorem C9_clamp_witness :
    clamp 30 50 100 =
      if (30 : Int) < 50 then 50 else if (30 : Int) > 100 then 100 else 30 :=
  C9_clamp_and_uses.1 30 50 100 (by decide)

/-- C10: when the passenger temperature is absent or the falsy number 0, it
is replaced by the driver temperature before clamping, so the sent payload
has equal driver and passenger temperatures. -/
theorem C10_falsy_passenger_temp_copies_driver
    (d : Int) (p : Option Int) (h : p = none ∨ p = some 0) :
    (setTempsPayload d p).driver_temp = (setTempsPayload d p).passenger_temp := by
  rcases h with h | h <;> rw [h] <;> rfl

/-- C10 witness: the passenger temperature equals the driver temperature when
it is absent and when it is 0. -/
theorem C10_falsy_passenger_temp_witness :
    (setTempsPayload 22 none).driver_temp =
      (setTempsPayload 22 none).passenger_temp
    ∧ (setTempsPayload 30 (some 0)).driver_temp =
      (setTempsPayload 30 (some 0)).passenger_temp :=
  ⟨C10_falsy_passenger_temp_copies_driver 22 none (Or.inl rfl),
   C10_falsy_passenger_temp_copies_driver 30 (some 0) (Or.inr rfl)⟩

end TeslaJS
